import Mathlib

/-!
Verification development for the MBPI-PrintUtility repository.

The repository holds four near-duplicate PyQt print dialogs (main.py,
main_1.py, main_2.py, main_3.py).  This file shallowly embeds the two
pieces of real logic -- the page-range resolver and the fit-to-page
placement computation -- together with the print-job sequencing of
process_and_print and the preview navigation state machine, and proves
or refutes the specification claims about them.

Conventions: Python unbounded integers are Int; Python lists are Lean
lists; Python strings are handled through their character lists; a
Python code path that can raise is embedded returning Option (none =
the exception path).  External collaborators (the PDF renderer and the
printer surface) are embedded as an explicit environment recording
whether opening the surface succeeds and, per page, whether the render
succeeds, comes back null, or raises.
-/

namespace PrintUtility

/-- Python str.strip() with no argument: drop whitespace from both ends.
(Python strips Unicode whitespace; the ASCII whitespace recognised by
Char.isWhitespace covers every input the program meets.) -/
def stripChars (l : List Char) : List Char :=
  ((l.dropWhile Char.isWhitespace).reverse.dropWhile Char.isWhitespace).reverse

/-- Python's "c in s" membership test for a single character. -/
def containsChar (c : Char) (l : List Char) : Bool :=
  l.any (fun x => x = c)

/-- Python str.split(c) for a one-character separator: the list of
(possibly empty) runs between occurrences of c; the empty string splits
to one empty part, and a separator at either end produces an empty part
there, exactly as in Python. -/
def splitOnChar (c : Char) : List Char → List (List Char)
  | [] => [[]]
  | x :: xs =>
    let r := splitOnChar c xs
    if x = c then [] :: r
    else
      match r with
      | [] => [[x]]
      | h :: t => (x :: h) :: t

/-- Decimal digit run to a natural number; none when the run is empty or
holds a non-digit (the ValueError cases of Python's int). -/
def digitsToNat? (l : List Char) : Option Nat :=
  if l ≠ [] ∧ l.all Char.isDigit then
    some (l.foldl (fun a c => a * 10 + (c.toNat - 48)) 0)
  else none

/-- Model of Python's built-in int(string) conversion as used on the
range tokens: surrounding whitespace is stripped, an optional sign is
allowed, then decimal digits; anything else raises ValueError (here:
none).  (Python additionally accepts underscore digit separators and
non-ASCII digits, which never occur in the claims and are not
modelled.) -/
def pyIntChars? (l : List Char) : Option Int :=
  match stripChars l with
  | '-' :: rest => (digitsToNat? rest).map (fun n => -(n : Int))
  | '+' :: rest => (digitsToNat? rest).map (fun n => (n : Int))
  | t => (digitsToNat? t).map (fun n => (n : Int))

/-- Model of Python's range(a, b) materialised as a list:
[a, a+1, ..., b-1], empty when b ≤ a. -/
def pyRange (a b : Int) : List Int :=
  (List.range (b - a).toNat).map (fun i : Nat => a + (i : Int))

/-- The full zero-based page list list(range(self.total_pages))
(main.py line 331). -/
def allPagesList (total : Nat) : List Int :=
  (List.range total).map (fun n : Nat => (n : Int))

/-- Parse of the two-token form "start-end": range_text.split('-') must
yield exactly two parts (otherwise the tuple unpacking
start, end = map(int, ...) raises ValueError) and both parts must parse
as integers (main.py line 335). -/
def parseDashRange (l : List Char) : Option (Int × Int) :=
  match splitOnChar '-' l with
  | [a, b] =>
    match pyIntChars? a, pyIntChars? b with
    | some x, some y => some (x, y)
    | _, _ => none
  | _ => none

/-- The shared parsing of a non-empty range text (main.py lines 333-338,
duplicated verbatim in main_1.py lines 140-145, main_2.py lines 149-156
and main_3.py lines 250-255): strip, then either "a-b" mapped to
list(range(a-1, b)) or a single integer n mapped to [n-1]; none models
the ValueError raised on a malformed token. -/
def parseRangeText (text : String) : Option (List Int) :=
  let t := stripChars text.data
  if containsChar '-' t then
    match parseDashRange t with
    | some (s, e) => some (pyRange (s - 1) e)
    | none => none
  else
    match pyIntChars? t with
    | some n => some [n - 1]
    | none => none

/-- The user's range specification: the "All Pages" radio button, or the
custom range line edit with its text. -/
inductive RangeSpec where
  | all : RangeSpec
  | explicit (text : String) : RangeSpec

/-- The generated page sequence before bounds filtering, from
update_preview_range (main.py lines 329-338): the All radio button or an
empty text gives the full page list; otherwise the text is parsed. -/
def generatePages (spec : RangeSpec) (total : Nat) : Option (List Int) :=
  match spec with
  | .all => some (allPagesList total)
  | .explicit text =>
    if text = "" then some (allPagesList total) else parseRangeText text

/-- The resolved page selection, from update_preview_range (main.py
lines 327-341): the generated sequence filtered to 0 ≤ p < total_pages
(line 339); a ValueError during generation leaves the empty selection
(lines 340-341). -/
def resolve (spec : RangeSpec) (total : Nat) : List Int :=
  ((generatePages spec total).getD []).filter
    (fun p => decide (0 ≤ p ∧ p < (total : Int)))

/-- The inclusive run of zero-based indices [start-1, ..., end-1] that
the spec (section 4.1) claims for the "start-end" form; compared below
against the sequence the code generates. -/
def inclusiveRun (a b : Int) : List Int :=
  (List.range (b - a + 1).toNat).map (fun i : Nat => a - 1 + (i : Int))

lemma resolve_eq_filter (spec : RangeSpec) (total : Nat) :
    resolve spec total =
      ((generatePages spec total).getD []).filter
        (fun p => decide (0 ≤ p ∧ p < (total : Int))) := rfl

lemma allPagesList_filter (total : Nat) :
    (allPagesList total).filter (fun p => decide (0 ≤ p ∧ p < (total : Int))) =
      allPagesList total := by
  apply List.filter_eq_self.mpr
  intro p hp
  obtain ⟨n, hn, rfl⟩ := List.mem_map.mp hp
  rw [List.mem_range] at hn
  simp only [decide_eq_true_eq]
  omega

/-- C1: resolving All, or an Explicit specification with empty text,
yields exactly the ordered zero-based index list [0, 1, ..., total-1]
(empty when total = 0). -/
theorem resolve_all_full_range (total : Nat) :
    resolve .all total = (List.range total).map (fun n : Nat => (n : Int)) ∧
    resolve (.explicit "") total = (List.range total).map (fun n : Nat => (n : Int)) := by
  have h1 : generatePages .all total = some (allPagesList total) := rfl
  have h2 : generatePages (.explicit "") total = some (allPagesList total) := by
    simp [generatePages]
  constructor <;>
    simp only [resolve, h1, h2, Option.getD_some, allPagesList_filter] <;> rfl

lemma pyRange_sub_one (a b : Int) : pyRange (a - 1) b = inclusiveRun a b := by
  unfold pyRange inclusiveRun
  have h : b - (a - 1) = b - a + 1 := by ring
  rw [h]

/-- C2: for an Explicit text of the form start-end with both tokens
parsing as integers, the generated sequence before filtering is the
inclusive zero-based run [start-1, ..., end-1]; when start > end that
run is empty and the resolver returns the empty selection, not an
error. -/
theorem explicit_dash_generates_inclusive_run (text : String) (a b : Int) (total : Nat)
    (hne : text ≠ "")
    (hdash : containsChar '-' (stripChars text.data) = true)
    (hparse : parseDashRange (stripChars text.data) = some (a, b)) :
    generatePages (.explicit text) total = some (inclusiveRun a b) ∧
    (b < a → resolve (.explicit text) total = []) := by
  have hgen : generatePages (.explicit text) total = some (pyRange (a - 1) b) := by
    simp only [generatePages, if_neg hne, parseRangeText, hdash, if_true, hparse]
  rw [pyRange_sub_one] at hgen
  refine ⟨hgen, fun hba => ?_⟩
  have hrun : inclusiveRun a b = [] := by
    unfold inclusiveRun
    have h0 : (b - a + 1).toNat = 0 := by omega
    rw [h0]
    rfl
  rw [resolve_eq_filter, hgen, hrun]
  rfl

/-- Witness for C2 at the spec's own example: resolving "2-1" against a
five-page document generates the empty run and yields no indices. -/
theorem explicit_dash_generates_inclusive_run_witness :
    parseDashRange (stripChars "2-1".data) = some (2, 1) ∧
    generatePages (.explicit "2-1") 5 = some (inclusiveRun 2 1) ∧
    resolve (.explicit "2-1") 5 = [] := by
  have h := explicit_dash_generates_inclusive_run "2-1" 2 1 5
    (by decide) (by decide) (by decide)
  exact ⟨by decide, h.1, h.2 (by decide)⟩

/-- C3: every index the resolver returns satisfies 0 ≤ i < pageCount for
every specification and page count; out-of-range endpoints are silently
dropped: resolving "5" against 3 pages and "0-0" against 1 page both
give the empty selection rather than an error. -/
theorem resolve_within_bounds (spec : RangeSpec) (total : Nat) :
    (resolve spec total).all (fun p => decide (0 ≤ p ∧ p < (total : Int))) = true ∧
    resolve (.explicit "5") 3 = [] ∧
    resolve (.explicit "0-0") 1 = [] := by
  refine ⟨?_, by decide, by decide⟩
  rw [resolve_eq_filter]
  apply List.all_eq_true.mpr
  intro p hp
  exact (List.mem_filter.mp hp).2

/-! ## Fit-to-page layout

The placement arithmetic of process_and_print (main.py lines 289-296;
identically main_1.py lines 176-185, main_2.py lines 273-280, main_3.py
lines 206-213).  The scaled size comes from Qt's QSize::scaled with
Qt.AspectRatioMode.KeepAspectRatio, whose integer semantics are: with
source (sw, sh) and target (tw, th), compute rw = th * sw / sh in
integer division; if rw ≤ tw the result is (rw, th), otherwise
(tw, tw * sh / sw); a degenerate source returns the target unchanged.
-/

/-- Qt QSize::scaled under KeepAspectRatio, integer division semantics
(called at main.py line 291 via q_image.size().scaled(target_size,
KeepAspectRatio)). -/
def qSizeScaledKAR (sw sh tw th : Nat) : Nat × Nat :=
  if sw = 0 ∨ sh = 0 then (tw, th)
  else if th * sw / sh ≤ tw then (th * sw / sh, th)
  else (tw, tw * sh / sw)

/-- The placement rectangle handed to painter.drawImage. -/
structure PlaceRect where
  x : Nat
  y : Nat
  width : Nat
  height : Nat
deriving DecidableEq, Repr

/-- The fit-and-center placement of process_and_print (main.py lines
289-296): scaled size via KeepAspectRatio, offsets (target - scaled)/2
converted with int().  Both differences are nonnegative because the
scaled size fits inside the target (proved below), so the Python
float-then-int truncation toward zero coincides with Nat division. -/
def place (sw sh tw th : Nat) : PlaceRect :=
  ⟨(tw - (qSizeScaledKAR sw sh tw th).1) / 2,
   (th - (qSizeScaledKAR sw sh tw th).2) / 2,
   (qSizeScaledKAR sw sh tw th).1,
   (qSizeScaledKAR sw sh tw th).2⟩

/-- Modelled from the claim and spec section 4.2: the scaled size
obtained by scaling the source uniformly by the exact rational
min(tw/sw, th/sh).  Stated over ℚ so that no rounding is imposed; the
counterexample below picks an input where both components are integers,
so no reading of the claim's rounding can rescue it. -/
def uniformFitSize (sw sh tw th : Nat) : ℚ × ℚ :=
  ((sw : ℚ) * min ((tw : ℚ) / (sw : ℚ)) ((th : ℚ) / (sh : ℚ)),
   (sh : ℚ) * min ((tw : ℚ) / (sw : ℚ)) ((th : ℚ) / (sh : ℚ)))

lemma qSizeScaledKAR_spec (sw sh tw th : Nat) (hsw : 0 < sw) (hsh : 0 < sh) :
    (qSizeScaledKAR sw sh tw th = (th * sw / sh, th) ∧ th * sw / sh ≤ tw) ∨
    (qSizeScaledKAR sw sh tw th = (tw, tw * sh / sw) ∧ tw < th * sw / sh) := by
  unfold qSizeScaledKAR
  rw [if_neg (by omega : ¬(sw = 0 ∨ sh = 0))]
  by_cases h : th * sw / sh ≤ tw
  · exact Or.inl ⟨by rw [if_pos h], h⟩
  · exact Or.inr ⟨by rw [if_neg h], by omega⟩

lemma cross_mul_of_div_lt (sw sh tw th : Nat) (h : tw < th * sw / sh) :
    tw * sh ≤ th * sw := by
  have h1 : (tw + 1) * sh ≤ (th * sw / sh) * sh :=
    Nat.mul_le_mul_right sh h
  have h2 : (th * sw / sh) * sh ≤ th * sw := Nat.div_mul_le_self _ _
  calc tw * sh ≤ (tw + 1) * sh := Nat.mul_le_mul_right sh (Nat.le_succ tw)
    _ ≤ th * sw := le_trans h1 h2

lemma div_le_of_cross_mul (sh tw th : Nat) (hsh : 0 < sh)
    (h : tw * sh ≤ th * sh) : tw * sh / sh ≤ th := by
  calc tw * sh / sh ≤ th * sh / sh := Nat.div_le_div_right h
    _ = th := Nat.mul_div_cancel th hsh

/-- C6 counterexample: for the 2×5 source and 2×6 target, uniform
scaling by min(tw/sw, th/sh) = 1 gives the exact integer size 2×5, but
the code's integer KeepAspectRatio fit returns height 6 (distorting the
aspect), so the placement is not the uniformly scaled source. -/
theorem place_not_uniform_min_scaling :
    uniformFitSize 2 5 2 6 = ((2 : ℚ), (5 : ℚ)) ∧
    place 2 5 2 6 = ⟨0, 0, 2, 6⟩ ∧
    ((place 2 5 2 6).height : ℚ) ≠ (uniformFitSize 2 5 2 6).2 := by
  have hu : uniformFitSize 2 5 2 6 = ((2 : ℚ), (5 : ℚ)) := by
    norm_num [uniformFitSize, min_def]
  have hp : place 2 5 2 6 = ⟨0, 0, 2, 6⟩ := by decide
  refine ⟨hu, hp, ?_⟩
  rw [hu, hp]
  norm_num

/-- C6 amended: the code's placement fits inside the target, is exact on
the constraining axis, is centered with the offset difference truncated
toward zero, and carries no cap at 1.0 (a source fitting inside the
target is scaled up to at least its own size); the scaled size follows
Qt's integer KeepAspectRatio arithmetic rather than exact uniform
scaling by min(tw/sw, th/sh). -/
theorem place_fit_centered_uncapped (sw sh tw th : Nat)
    (hsw : 0 < sw) (hsh : 0 < sh) :
    (place sw sh tw th).width ≤ tw ∧
    (place sw sh tw th).height ≤ th ∧
    ((place sw sh tw th).height = th ∨ (place sw sh tw th).width = tw) ∧
    2 * (place sw sh tw th).x + (place sw sh tw th).width ≤ tw ∧
    tw < 2 * (place sw sh tw th).x + (place sw sh tw th).width + 2 ∧
    2 * (place sw sh tw th).y + (place sw sh tw th).height ≤ th ∧
    th < 2 * (place sw sh tw th).y + (place sw sh tw th).height + 2 ∧
    (sw ≤ tw → sh ≤ th →
      sw ≤ (place sw sh tw th).width ∧ sh ≤ (place sw sh tw th).height) := by
  rcases qSizeScaledKAR_spec sw sh tw th hsw hsh with ⟨hq, hle⟩ | ⟨hq, hlt⟩
  · have hw : (place sw sh tw th).width = th * sw / sh := by
      simp [place, hq]
    have hh : (place sw sh tw th).height = th := by simp [place, hq]
    have hx : (place sw sh tw th).x = (tw - th * sw / sh) / 2 := by
      simp [place, hq]
    have hy : (place sw sh tw th).y = (th - th) / 2 := by simp [place, hq]
    rw [hw, hh, hx, hy]
    refine ⟨hle, le_refl th, Or.inl rfl, by omega, by omega, by omega, by omega,
      fun hwt hht => ⟨?_, hht⟩⟩
    calc sw = sh * sw / sh := (Nat.mul_div_cancel_left sw hsh).symm
      _ ≤ th * sw / sh := Nat.div_le_div_right (Nat.mul_le_mul_right sw hht)
  · have hcross : tw * sh ≤ th * sw := cross_mul_of_div_lt sw sh tw th hlt
    have hhle : tw * sh / sw ≤ th := by
      calc tw * sh / sw ≤ th * sw / sw := Nat.div_le_div_right hcross
        _ = th := Nat.mul_div_cancel th hsw
    have hw : (place sw sh tw th).width = tw := by simp [place, hq]
    have hh : (place sw sh tw th).height = tw * sh / sw := by
      simp [place, hq]
    have hx : (place sw sh tw th).x = (tw - tw) / 2 := by simp [place, hq]
    have hy : (place sw sh tw th).y = (th - tw * sh / sw) / 2 := by
      simp [place, hq]
    rw [hw, hh, hx, hy]
    refine ⟨le_refl tw, hhle, Or.inr rfl, by omega, by omega, by omega, by omega,
      fun hwt hht => ⟨hwt, ?_⟩⟩
    calc sh = sw * sh / sw := (Nat.mul_div_cancel_left sh hsw).symm
      _ ≤ tw * sh / sw := Nat.div_le_div_right (Nat.mul_le_mul_right sh hwt)

/-- Witness for the amended C6 at the spec's example 200×100 into
100×100 (yielding 100×50 at offsets 0, 25) and, for the no-cap clause,
at the upscaling input 10×5 into 100×100. -/
theorem place_fit_centered_uncapped_witness :
    place 200 100 100 100 = ⟨0, 25, 100, 50⟩ ∧
    (place 200 100 100 100).width ≤ 100 ∧
    2 * (place 200 100 100 100).y + (place 200 100 100 100).height ≤ 100 ∧
    10 ≤ (place 10 5 100 100).width ∧ 5 ≤ (place 10 5 100 100).height := by
  have h1 := place_fit_centered_uncapped 200 100 100 100 (by decide) (by decide)
  have h2 := place_fit_centered_uncapped 10 5 100 100 (by decide) (by decide)
  have h3 := h2.2.2.2.2.2.2.2 (by decide) (by decide)
  exact ⟨by decide, h1.1, h1.2.2.2.2.2.1, h3.1, h3.2⟩

/-! ## Orientation handling in the two callers (C7) -/

/-- Effective source size in the preview: selecting Landscape rotates
the pixmap by 90 degrees, swapping its width and height (main.py lines
364-366). -/
def previewSourceSize (sw sh : Nat) (landscape : Bool) : Nat × Nat :=
  if landscape then (sh, sw) else (sw, sh)

/-- Scaled preview pixmap size (main.py lines 368-376): the possibly
rotated pixmap is fitted with KeepAspectRatio into the viewport shrunk
by 5 pixels on each axis.  (Viewports smaller than 5 pixels do not
occur; Nat subtraction truncates there.) -/
def previewScaledSize (sw sh vw vh : Nat) (landscape : Bool) : Nat × Nat :=
  qSizeScaledKAR (previewSourceSize sw sh landscape).1
    (previewSourceSize sw sh landscape).2 (vw - 5) (vh - 5)

/-- The printable page area in device pixels seen by process_and_print:
(pw, ph) is the portrait printable area, and selecting Landscape in
execute_print (main.py lines 219-222) sets the page layout orientation,
which swaps the area reported by printer.pageRect; the raster itself is
never transformed on the print path. -/
def printTargetSize (pw ph : Nat) (landscape : Bool) : Nat × Nat :=
  if landscape then (ph, pw) else (pw, ph)

/-- The placement the print path actually computes (main.py lines
282-296): the unrotated page raster fitted into the
orientation-adjusted printable area. -/
def printPlacement (sw sh pw ph : Nat) (landscape : Bool) : PlaceRect :=
  place sw sh (printTargetSize pw ph landscape).1
    (printTargetSize pw ph landscape).2

/-- Modelled from the claim (C7, spec section 4.2): the print placement
as the spec describes it, with the source dimensions swapped before the
fit when the orientation is Landscape. -/
def printPlacementClaimed (sw sh pw ph : Nat) (landscape : Bool) : PlaceRect :=
  place (previewSourceSize sw sh landscape).1
    (previewSourceSize sw sh landscape).2
    (printTargetSize pw ph landscape).1 (printTargetSize pw ph landscape).2

/-- C7 counterexample: for a 100×200 raster on a printer whose portrait
printable area is 500×1000, the landscape print path places the
unrotated raster as 250×500 at (375, 0), while the claimed
rotate-source-then-fit algorithm would place 1000×500 at (0, 0): the
print caller does not apply the source-rotation-then-fit algorithm. -/
theorem print_path_does_not_rotate_source :
    printPlacement 100 200 500 1000 true = ⟨375, 0, 250, 500⟩ ∧
    printPlacementClaimed 100 200 500 1000 true = ⟨0, 0, 1000, 500⟩ ∧
    printPlacement 100 200 500 1000 true ≠
      printPlacementClaimed 100 200 500 1000 true := by
  exact ⟨by decide, by decide, by decide⟩

/-- C7 amended: the preview really does swap the source dimensions
before fitting (a landscape preview equals a portrait preview of the
pre-swapped raster), and both callers share the same fit-and-center
computation; but the print path swaps the target printable area via the
page layout and never rotates the raster, so in portrait the two
algorithms agree while in landscape the print placement is the
unrotated source fitted into the swapped area. -/
theorem preview_rotates_source_print_swaps_target
    (sw sh vw vh pw ph : Nat) :
    previewScaledSize sw sh vw vh true = previewScaledSize sh sw vw vh false ∧
    previewScaledSize sw sh vw vh false =
      qSizeScaledKAR sw sh (vw - 5) (vh - 5) ∧
    printPlacement sw sh pw ph false = printPlacementClaimed sw sh pw ph false ∧
    printPlacement sw sh pw ph true = place sw sh ph pw ∧
    ((printPlacement sw sh pw ph false).width,
      (printPlacement sw sh pw ph false).height) = qSizeScaledKAR sw sh pw ph := by
  refine ⟨rfl, rfl, rfl, rfl, ?_⟩
  simp [printPlacement, printTargetSize, place]

/-! ## Print job execution (process_and_print) -/

/-- Result of requesting one page's raster from the document
collaborator (load_page, get_pixmap and the QImage construction): a
valid image, a null image (q_image.isNull()), or a raised exception. -/
inductive RenderResult where
  | ok : RenderResult
  | nullImage : RenderResult
  | raises : RenderResult
deriving DecidableEq

/-- Environment of one print run: whether painter.begin(printer)
succeeds, and each page's render result. -/
structure PrintEnv where
  beginOk : Bool
  render : Int → RenderResult

/-- Events accumulated by the page loop of process_and_print. -/
structure LoopAcc where
  drawn : List Int
  advances : Nat
  renders : Nat
  raised : Bool
deriving DecidableEq

/-- The page loop of main.py process_and_print (lines 275-300): each
iteration requests the page's raster (one render); a null image skips
the page via continue, which also skips that iteration's newPage; a
valid image is drawn and printer.newPage() advances unless the index is
the last one; an exception aborts the loop, keeping what was already
drawn and advanced. -/
def drawLoop (env : PrintEnv) : List Int → LoopAcc
  | [] => ⟨[], 0, 0, false⟩
  | p :: rest =>
    match env.render p with
    | .raises => ⟨[], 0, 1, true⟩
    | .nullImage =>
      let r := drawLoop env rest
      ⟨r.drawn, r.advances, r.renders + 1, r.raised⟩
    | .ok =>
      let r := drawLoop env rest
      ⟨p :: r.drawn, (if rest.isEmpty then 0 else 1) + r.advances,
        r.renders + 1, r.raised⟩

/-- Outcome reported by main.py process_and_print. -/
inductive JobOutcome where
  | noPages : JobOutcome
  | surfaceOpenFailure : JobOutcome
  | success : JobOutcome
  | unexpectedFailure : JobOutcome
deriving DecidableEq

/-- Observable result of one main.py process_and_print run. -/
structure JobResult where
  outcome : JobOutcome
  beginCalled : Bool
  drawn : List Int
  advances : Nat
  renders : Nat
deriving DecidableEq

/-- main.py process_and_print (lines 261-308): an empty selection is
refused with the "No Pages Selected" warning before the painter is
touched; a failed painter.begin aborts with the "Print Error" dialog;
otherwise the page loop runs, reporting Success, or the "Printing
Failed" dialog if an exception escaped (main_2.py lines 243-293 and
main_3.py lines 178-225 behave identically in these respects). -/
def processAndPrint (pages : List Int) (env : PrintEnv) : JobResult :=
  if pages.isEmpty then ⟨.noPages, false, [], 0, 0⟩
  else if env.beginOk = false then ⟨.surfaceOpenFailure, true, [], 0, 0⟩
  else
    let r := drawLoop env pages
    ⟨if r.raised then .unexpectedFailure else .success, true,
      r.drawn, r.advances, r.renders⟩

/-- Outcome reported by the main_1.py variant of process_and_print,
whose except ValueError handler surfaces an "Invalid Page Range"
critical dialog. -/
inductive Outcome1 where
  | invalidRange : Outcome1
  | surfaceOpenFailure : Outcome1
  | success : Outcome1
  | unexpectedFailure : Outcome1
deriving DecidableEq

/-- Observable result of one main_1.py process_and_print run. -/
structure Job1Result where
  outcome : Outcome1
  beginCalled : Bool
  drawn : List Int
  advances : Nat
deriving DecidableEq

/-- The page list main_1.py builds inside process_and_print (lines
136-145): the All radio gives the full list; otherwise the stripped
text is parsed with no empty-text special case and no bounds filtering
(bounds are checked per page inside the loop instead). -/
def main1Parse (allPages : Bool) (text : String) (total : Nat) :
    Option (List Int) :=
  if allPages then some (allPagesList total) else parseRangeText text

/-- The page loop of main_1.py process_and_print (lines 154-189): pages
outside [0, total) are skipped by continue before any render; a null
image warns and skips; a valid image is drawn; the newPage advance is
tied to the index position and skipped by both continues. -/
def drawLoop1 (env : PrintEnv) (total : Nat) : List Int → LoopAcc
  | [] => ⟨[], 0, 0, false⟩
  | p :: rest =>
    if 0 ≤ p ∧ p < (total : Int) then
      match env.render p with
      | .raises => ⟨[], 0, 1, true⟩
      | .nullImage =>
        let r := drawLoop1 env total rest
        ⟨r.drawn, r.advances, r.renders + 1, r.raised⟩
      | .ok =>
        let r := drawLoop1 env total rest
        ⟨p :: r.drawn, (if rest.isEmpty then 0 else 1) + r.advances,
          r.renders + 1, r.raised⟩
    else
      let r := drawLoop1 env total rest
      ⟨r.drawn, r.advances, r.renders, r.raised⟩

/-- main_1.py process_and_print (lines 130-201): the page list is built
first, inside the try block, so a ValueError from malformed range text
jumps to the except handler showing the "Invalid Page Range" critical
dialog before the painter is touched; there is no empty-selection
check, so with a successfully parsed empty range the surface is opened
and the empty loop completes with the Success dialog. -/
def main1ProcessAndPrint (allPages : Bool) (text : String) (total : Nat)
    (env : PrintEnv) : Job1Result :=
  match main1Parse allPages text total with
  | none => ⟨.invalidRange, false, [], 0⟩
  | some pages =>
    if env.beginOk = false then ⟨.surfaceOpenFailure, true, [], 0⟩
    else
      let r := drawLoop1 env total pages
      ⟨if r.raised then .unexpectedFailure else .success, true,
        r.drawn, r.advances⟩

/-- C4 counterexample: in the main_1.py variant the unparsable range
text "abc" makes process_and_print surface the Invalid Page Range
critical dialog — the parse failure is not swallowed quietly in every
variant. -/
theorem main1_surfaces_invalid_range_error :
    (main1ProcessAndPrint false "abc" 5 ⟨true, fun _ => .ok⟩).outcome =
      .invalidRange ∧
    (main1ProcessAndPrint false "abc" 5 ⟨true, fun _ => .ok⟩).outcome ≠
      .success := ⟨by decide, by decide⟩

/-- C4 amended: a parse failure is swallowed into the empty selection by
the resolver shared by main.py, main_2.py and main_3.py, but in the
main_1.py variant the same failing text makes process_and_print surface
the Invalid Page Range error dialog (before the surface is opened)
instead of printing nothing. -/
theorem invalid_text_quiet_empty_except_main1 (text : String) (total : Nat)
    (env : PrintEnv) (hfail : generatePages (.explicit text) total = none) :
    resolve (.explicit text) total = [] ∧
    (main1ProcessAndPrint false text total env).outcome = .invalidRange ∧
    (main1ProcessAndPrint false text total env).beginCalled = false := by
  have hne : text ≠ "" := by
    intro h
    subst h
    simp [generatePages] at hfail
  have hpt : parseRangeText text = none := by
    simpa [generatePages, if_neg hne] using hfail
  have hm : main1Parse false text total = none := by
    simp [main1Parse, hpt]
  refine ⟨?_, ?_, ?_⟩
  · rw [resolve_eq_filter, hfail]
    rfl
  · simp [main1ProcessAndPrint, hm]
  · simp [main1ProcessAndPrint, hm]

/-- Witness for the amended C4 at the spec's example text "abc". -/
theorem invalid_text_quiet_empty_except_main1_witness :
    generatePages (.explicit "abc") 5 = none ∧
    resolve (.explicit "abc") 5 = [] ∧
    (main1ProcessAndPrint false "abc" 5 ⟨true, fun _ => .ok⟩).beginCalled =
      false := by
  have h := invalid_text_quiet_empty_except_main1 "abc" 5
    ⟨true, fun _ => .ok⟩ (by decide)
  exact ⟨by decide, h.1, h.2.2⟩

/-- C5 counterexample: in main_1.py the range "2-1" parses to the empty
selection, yet process_and_print opens the print surface
(painter.begin is called), draws nothing and reports Success — the job
is not refused with the No Pages Selected warning in every variant. -/
theorem main1_opens_surface_on_empty_selection :
    (main1ProcessAndPrint false "2-1" 5 ⟨true, fun _ => .ok⟩).beginCalled =
      true ∧
    (main1ProcessAndPrint false "2-1" 5 ⟨true, fun _ => .ok⟩).outcome =
      .success ∧
    (main1ProcessAndPrint false "2-1" 5 ⟨true, fun _ => .ok⟩).drawn = [] :=
  ⟨by decide, by decide, by decide⟩

/-- C5 amended: in main.py (and identically main_2.py and main_3.py) an
empty resolved selection is refused with the No Pages Selected warning
and painter.begin is never called; main_1.py has no such check: any
range text parsing to an empty list opens the surface and completes an
empty job reported as Success. -/
theorem empty_selection_refused_except_main1 (env : PrintEnv)
    (allP : Bool) (text : String) (total : Nat)
    (hp : main1Parse allP text total = some []) (hb : env.beginOk = true) :
    (processAndPrint [] env).outcome = .noPages ∧
    (processAndPrint [] env).beginCalled = false ∧
    (main1ProcessAndPrint allP text total env).beginCalled = true ∧
    (main1ProcessAndPrint allP text total env).outcome = .success ∧
    (main1ProcessAndPrint allP text total env).drawn = [] := by
  refine ⟨rfl, rfl, ?_, ?_, ?_⟩ <;>
    simp [main1ProcessAndPrint, hp, hb, drawLoop1]

/-- Witness for the amended C5 at the spec's inverted range "2-1". -/
theorem empty_selection_refused_except_main1_witness :
    main1Parse false "2-1" 5 = some [] ∧
    (processAndPrint [] ⟨true, fun _ => .ok⟩).outcome = .noPages ∧
    (main1ProcessAndPrint false "2-1" 5 ⟨true, fun _ => .ok⟩).outcome =
      .success := by
  have h := empty_selection_refused_except_main1 ⟨true, fun _ => .ok⟩
    false "2-1" 5 (by decide) rfl
  exact ⟨by decide, h.1, h.2.2.2.1⟩

lemma drawLoop_renders_pos (env : PrintEnv) (p : Int) (rest : List Int) :
    0 < (drawLoop env (p :: rest)).renders := by
  unfold drawLoop
  cases hr : env.render p <;> simp [hr]

/-- C8: with a nonempty selection, the surface-open failure outcome is
exactly the painter.begin-failure case, in which nothing is rendered,
drawn or advanced (no partial output); whenever begin succeeds the job
always proceeds into the drawing loop (at least one render is
requested), so no other condition aborts before drawing starts. -/
theorem surface_open_failure_is_only_predraw_abort (pages : List Int)
    (env : PrintEnv) (hne : pages ≠ []) :
    ((processAndPrint pages env).outcome = .surfaceOpenFailure ↔
      env.beginOk = false) ∧
    (env.beginOk = false →
      processAndPrint pages env = ⟨.surfaceOpenFailure, true, [], 0, 0⟩) ∧
    (env.beginOk = true → 0 < (processAndPrint pages env).renders) := by
  have hempty : pages.isEmpty = false := by
    cases pages with
    | nil => exact absurd rfl hne
    | cons a l => rfl
  by_cases hb : env.beginOk = false
  · have hres : processAndPrint pages env =
        ⟨.surfaceOpenFailure, true, [], 0, 0⟩ := by
      simp [processAndPrint, hempty, hb]
    rw [hres]
    exact ⟨by simp [hb], fun _ => rfl, fun h => absurd hb (by simp [h])⟩
  · have hb2 : env.beginOk = true := by
      revert hb
      cases env.beginOk <;> simp
    have hres : processAndPrint pages env =
        ⟨if (drawLoop env pages).raised then .unexpectedFailure else .success,
          true, (drawLoop env pages).drawn, (drawLoop env pages).advances,
          (drawLoop env pages).renders⟩ := by
      simp [processAndPrint, hempty, hb2]
    rw [hres]
    refine ⟨⟨fun h => ?_, fun h => absurd h hb⟩, fun h => absurd h hb,
      fun _ => ?_⟩
    · exfalso
      revert h
      cases (drawLoop env pages).raised <;> simp
    · show 0 < (drawLoop env pages).renders
      cases pages with
      | nil => exact absurd rfl hne
      | cons p rest => exact drawLoop_renders_pos env p rest

/-- Witness for C8: a failed begin on a one-page job gives exactly the
aborted result; a successful begin on the same job renders and
succeeds. -/
theorem surface_open_failure_is_only_predraw_abort_witness :
    processAndPrint [0] ⟨false, fun _ => .ok⟩ =
      ⟨.surfaceOpenFailure, true, [], 0, 0⟩ ∧
    (processAndPrint [0] ⟨true, fun _ => .ok⟩).outcome = .success ∧
    0 < (processAndPrint [0] ⟨true, fun _ => .ok⟩).renders := by
  have h1 := surface_open_failure_is_only_predraw_abort [0]
    ⟨false, fun _ => .ok⟩ (by decide)
  have h2 := surface_open_failure_is_only_predraw_abort [0]
    ⟨true, fun _ => .ok⟩ (by decide)
  exact ⟨h1.2.1 rfl, by decide, h2.2.2 rfl⟩

lemma drawLoop_no_raise (env : PrintEnv) (pages : List Int)
    (h : ∀ p ∈ pages, env.render p ≠ .raises) :
    (drawLoop env pages).raised = false ∧
    (drawLoop env pages).drawn =
      pages.filter (fun p => decide (env.render p = .ok)) := by
  induction pages with
  | nil => exact ⟨rfl, rfl⟩
  | cons p rest ih =>
    have hp : env.render p ≠ .raises := h p (List.mem_cons_self p rest)
    have hrest := ih (fun q hq => h q (List.mem_cons_of_mem p hq))
    unfold drawLoop
    cases hr : env.render p with
    | raises => exact absurd hr hp
    | nullImage =>
      simp [hr, hrest.1, hrest.2, List.filter_cons]
    | ok =>
      simp [hr, hrest.1, hrest.2, List.filter_cons]

/-- C9: when the surface opens and no page raises, every page whose
raster comes back null is skipped and the job still completes with
Success, drawing exactly the pages with valid rasters in their original
order — a single page's render failure never aborts the job. -/
theorem page_render_failure_skips_page_only (pages : List Int)
    (env : PrintEnv) (hne : pages ≠ []) (hb : env.beginOk = true)
    (hnr : ∀ p ∈ pages, env.render p ≠ .raises) :
    (processAndPrint pages env).outcome = .success ∧
    (processAndPrint pages env).drawn =
      pages.filter (fun p => decide (env.render p = .ok)) := by
  have hempty : pages.isEmpty = false := by
    cases pages with
    | nil => exact absurd rfl hne
    | cons a l => rfl
  have hd := drawLoop_no_raise env pages hnr
  constructor <;> simp [processAndPrint, hempty, hb, hd.1, hd.2]

/-- Witness for C9: on pages [0, 1, 2] with page 1 rendering null, the
job succeeds and draws exactly [0, 2]. -/
theorem page_render_failure_skips_page_only_witness :
    (processAndPrint [0, 1, 2]
      ⟨true, fun p => if p = 1 then .nullImage else .ok⟩).outcome =
        .success ∧
    (processAndPrint [0, 1, 2]
      ⟨true, fun p => if p = 1 then .nullImage else .ok⟩).drawn = [0, 2] := by
  have h := page_render_failure_skips_page_only [0, 1, 2]
    ⟨true, fun p => if p = 1 then .nullImage else .ok⟩
    (by decide) rfl (by decide)
  refine ⟨h.1, ?_⟩
  rw [h.2]
  decide

/-! ## Preview navigation state (C10) -/

/-- The two mutable preview fields of the dialog: self.preview_pages and
self.current_preview_index.  The index is Int, as in Python, so that
nonnegativity is a statement and not a typing artifact. -/
structure PreviewState where
  preview_pages : List Int
  current_preview_index : Int

/-- The dialog starts with an empty selection and cursor 0 (main.py
lines 40-41; main_2.py lines 20-21; main_3.py lines 24-25). -/
def initPreviewState : PreviewState := ⟨[], 0⟩

/-- The three operations that touch the preview fields:
update_preview_range (recompute the selection from the current range
inputs and reset the cursor), show_prev_page and show_next_page. -/
inductive PreviewOp where
  | update (spec : RangeSpec) (total : Nat) : PreviewOp
  | prevPage : PreviewOp
  | nextPage : PreviewOp

/-- One operation applied to the preview state: update_preview_range
(main.py lines 327-343) rebuilds preview_pages via the resolver and
sets current_preview_index to 0; show_prev_page (lines 387-390)
decrements only when the index is positive; show_next_page (lines
392-395, identically main_2.py lines 199-203) increments only when the
index is below len(preview_pages) - 1. -/
def applyOp (op : PreviewOp) (s : PreviewState) : PreviewState :=
  match op with
  | .update spec total => ⟨resolve spec total, 0⟩
  | .prevPage =>
    if 0 < s.current_preview_index then
      ⟨s.preview_pages, s.current_preview_index - 1⟩
    else s
  | .nextPage =>
    if s.current_preview_index < (s.preview_pages.length : Int) - 1 then
      ⟨s.preview_pages, s.current_preview_index + 1⟩
    else s

/-- The preview state after a sequence of user actions, starting from
the freshly opened dialog. -/
def applyOps (ops : List PreviewOp) : PreviewState :=
  ops.foldl (fun s op => applyOp op s) initPreviewState

/-- The claimed cursor invariant: the index is nonnegative, and strictly
below the selection length whenever the selection is nonempty. -/
def previewInvariant (s : PreviewState) : Prop :=
  0 ≤ s.current_preview_index ∧
  (s.preview_pages ≠ [] →
    s.current_preview_index < (s.preview_pages.length : Int))

lemma applyOp_preserves (op : PreviewOp) (s : PreviewState)
    (h : previewInvariant s) : previewInvariant (applyOp op s) := by
  cases op with
  | update spec total =>
    refine ⟨le_refl 0, fun hne => ?_⟩
    have hpos : 0 < (resolve spec total).length := List.length_pos.mpr hne
    show (0 : Int) < ((resolve spec total).length : Int)
    exact_mod_cast hpos
  | prevPage =>
    by_cases hc : 0 < s.current_preview_index
    · simp only [applyOp, if_pos hc]
      unfold previewInvariant
      dsimp only
      refine ⟨by omega, fun hne => ?_⟩
      have := h.2 hne
      omega
    · simpa only [applyOp, if_neg hc] using h
  | nextPage =>
    by_cases hc :
        s.current_preview_index < (s.preview_pages.length : Int) - 1
    · simp only [applyOp, if_pos hc]
      unfold previewInvariant
      dsimp only
      exact ⟨by have := h.1; omega, fun _ => by omega⟩
    · simpa only [applyOp, if_neg hc] using h

/-- C10: after any sequence of selection recomputations and navigation
clicks starting from the freshly opened dialog, the preview cursor is
nonnegative and strictly below the selection length whenever the
selection is nonempty; and every selection recomputation resets the
cursor to 0 from any state. -/
theorem preview_cursor_invariant (ops : List PreviewOp)
    (spec : RangeSpec) (total : Nat) (s : PreviewState) :
    previewInvariant (applyOps ops) ∧
    (applyOp (.update spec total) s).current_preview_index = 0 := by
  refine ⟨?_, rfl⟩
  have hinit : previewInvariant initPreviewState :=
    ⟨le_refl 0, fun h => absurd rfl h⟩
  rw [applyOps]
  generalize initPreviewState = st at hinit ⊢
  induction ops generalizing st with
  | nil => exact hinit
  | cons op rest ih => exact ih _ (applyOp_preserves op st hinit)

/-- Witness for C10: after updating to the range "1-3" on a five-page
document and navigating forward twice and back once, the cursor is 1,
nonnegative and below the selection length 3. -/
theorem preview_cursor_invariant_witness :
    (applyOps [.update (.explicit "1-3") 5, .nextPage, .nextPage,
      .prevPage]).current_preview_index = 1 ∧
    0 ≤ (applyOps [.update (.explicit "1-3") 5, .nextPage, .nextPage,
      .prevPage]).current_preview_index ∧
    (applyOps [.update (.explicit "1-3") 5, .nextPage, .nextPage,
      .prevPage]).current_preview_index <
      (((applyOps [.update (.explicit "1-3") 5, .nextPage, .nextPage,
        .prevPage]).preview_pages.length : Nat) : Int) := by
  have h := preview_cursor_invariant
    [.update (.explicit "1-3") 5, .nextPage, .nextPage, .prevPage]
    .all 0 initPreviewState
  exact ⟨by decide, h.1.1, h.1.2 (by decide)⟩

end PrintUtility
